import Mathlib

/-!
Shallow embedding of the mlbv-rs core logic for specification checking.

Each definition mirrors one item of the Rust source, keeping the source's
names where Lean allows.  Network and file-system effects are made explicit:
HTTP responses become parameters, the token-cache file becomes an
`Option Json` value threaded through the functions, and emitted effects are
returned as a trace list.
-/

namespace Mlbv

/-! ## Media-gateway stream model (src/api/mediagateway/streams.rs) -/

/-- Feed orientation of a stream (`FeedType` in streams.rs); `Network`
corresponds to a national broadcast. -/
inductive FeedType where
  | home
  | away
  | network
deriving DecidableEq, Repr

/-- Media kind of a stream (`MediaType` in streams.rs). -/
inductive MediaType where
  | audio
  | video
deriving DecidableEq, Repr

/-- `MediaState` in streams.rs: playback state string plus media kind. -/
structure MediaState where
  state : String
  media_type : MediaType
deriving DecidableEq, Repr

/-- One element of a content-search response (`StreamData` in streams.rs). -/
structure StreamData where
  media_id : String
  feed_type : FeedType
  language : String
  media_state : MediaState
deriving DecidableEq, Repr

/-- `ContentSearchResults` in streams.rs: the candidate streams for a game. -/
structure ContentSearchResults where
  content : List StreamData
deriving DecidableEq, Repr

/-- `ContentSearchResults::select_feed`: first stream matching the requested
feed orientation and media kind whose state is not "OFF" and whose language
is "en". -/
def ContentSearchResults.select_feed (c : ContentSearchResults)
    (media_type : MediaType) (feed_type : FeedType) : Option StreamData :=
  c.content.find? fun stream =>
    decide (stream.feed_type = feed_type
      ∧ stream.media_state.media_type = media_type
      ∧ stream.media_state.state ≠ "OFF"
      ∧ stream.language = "en")

/-- `ContentSearchResults::find_best_feed`: walk the ordered preference list
(exact request, then national feed of the requested media kind, then audio of
the requested orientation) and return the first tier that matches; as a last
resort return the first stream whose state is not "OFF". -/
def ContentSearchResults.find_best_feed (c : ContentSearchResults)
    (media_type : MediaType) (feed_type : FeedType) : Option StreamData :=
  let search_prefs : List (MediaType × FeedType) :=
    [(media_type, feed_type),
     (media_type, FeedType.network),
     (MediaType.audio, feed_type)]
  match search_prefs.findSome? (fun p => c.select_feed p.1 p.2) with
  | some stream => some stream
  | none => c.content.find? fun stream => decide (stream.media_state.state ≠ "OFF")

/-! ## Schedule model (src/api/stats/schedule.rs) -/

/-- `GameStatus` in schedule.rs. -/
structure GameStatus where
  abstract_game_state : String
  detailed_state : String
  status_code : String
  reason : Option String
  coded_game_state : String
deriving DecidableEq, Repr

/-- `GameTeam` in schedule.rs. -/
structure GameTeam where
  id : Nat
  name : String
deriving DecidableEq, Repr

/-- `GameTeamStats` in schedule.rs. -/
structure GameTeamStats where
  team : GameTeam
deriving DecidableEq, Repr

/-- `Matchup` in schedule.rs. -/
structure Matchup where
  home : GameTeamStats
  away : GameTeamStats
deriving DecidableEq, Repr

/-- `GameData` in schedule.rs.  The hydration-only substructures
(`linescore`, `broadcasts`, `content`) are display data never read by the
selection logic under verification and are omitted from the embedding. -/
structure GameData where
  game_pk : Nat
  game_date : String
  status : GameStatus
  teams : Matchup
  game_number : Nat
  games_in_series : Nat
  series_game_number : Nat
deriving DecidableEq, Repr

/-- `DaySchedule` in schedule.rs (the date kept as its textual form). -/
structure DaySchedule where
  date : String
  games : List GameData
deriving DecidableEq, Repr

/-- Error kinds raised by `select_game` (anyhow messages in the source,
distinguished here as constructors). -/
inductive SelectGameError where
  | noGameAvailable
  | invalidGameNumber (n : Nat)
  | gameNumberNotFound (n : Nat)
deriving DecidableEq, Repr

namespace schedule

/-- `select_game` in src/api/stats/schedule.rs.  `position` followed by
`swap_remove(pos)` returns the element at the first matching position, which
is `List.find?`; `remove(0)` in the defensive fallback returns the first
element. -/
def select_game (team_games : List GameData) (game_number : Option Nat) :
    Except SelectGameError GameData :=
  match team_games with
  | [] => .error .noGameAvailable
  | [game] => .ok game
  | game₁ :: _ :: _ =>
    match game_number with
    | some n =>
      if n ≠ 1 ∧ n ≠ 2 then .error (.invalidGameNumber n)
      else
        match team_games.find? (fun g => decide (g.game_number = n)) with
        | some g => .ok g
        | none => .error (.gameNumberNotFound n)
    | none =>
      match team_games.find?
          (fun g => decide (g.status.abstract_game_state = "Live")) with
      | some g => .ok g
      | none =>
        match team_games.find? (fun g => decide (g.game_number = 1)) with
        | some g => .ok g
        | none => .ok game₁

/-- Error raised by `fetch_schedule_by_date` when the schedule service
returns more than one date entry for a single requested date. -/
inductive ScheduleFetchError where
  | unexpectedApiShape (n : Nat)
deriving DecidableEq, Repr

/-- Response-handling core of `MlbSession::fetch_schedule_by_date`: the HTTP
layer is abstracted away and the function receives the `dates` list of the
parsed schedule response.  `dates.pop()` on a one-element vector yields that
single element. -/
def fetch_schedule_by_date (dates : List DaySchedule) :
    Except ScheduleFetchError (Option DaySchedule) :=
  match dates with
  | [] => .ok none
  | [d] => .ok (some d)
  | ds => .error (.unexpectedApiShape ds.length)

end schedule

namespace gamedata

/-- `select_game` in src/gamedata.rs (the legacy implementation).  With a
provided game number in {1, 2} it takes `nth(n - 1)` positionally; with none
it inspects only whether the second list element is live.  The legacy
`GameData` shares the fields read here with the schedule one, so the same
embedding type is used. -/
def select_game (team_games : List GameData) (game_number : Option Nat) :
    Except SelectGameError GameData :=
  match team_games with
  | [] => .error .noGameAvailable
  | [game] => .ok game
  | game_one :: game_two :: _ =>
    match game_number with
    | some n =>
      if n = 1 ∨ n = 2 then .ok (if n = 1 then game_one else game_two)
      else .error (.invalidGameNumber n)
    | none =>
      if game_two.status.abstract_game_state = "Live" then .ok game_two
      else .ok game_one

end gamedata

/-! ## Session and token cache model (src/session.rs)

The token-cache file is modelled as `Option Json` (absent, or the parsed
JSON document it holds); `chrono::DateTime<Utc>` timestamps are modelled as
integer timestamps in seconds, so `Duration::seconds(60)` is the integer 60.
Each of the four network exchanges of a full authorization is modelled by
its outcome recorded in a `NetWorld` environment, and the effects a run
performs are returned as a trace. -/

/-- A JSON document, as far as the token cache needs it. -/
inductive Json where
  | null
  | str (s : String)
  | num (n : Int)
  | obj (fields : List (String × Json))

/-- First value bound to `key` in a JSON object's field list. -/
def Json.lookup (fields : List (String × Json)) (key : String) : Option Json :=
  (fields.find? (fun p => decide (p.1 = key))).map (·.2)

/-- Failure to deserialize the cache file contents as a token
(`serde_json::from_str` error in `OktaAuthResponse::load`). -/
inductive TokenCacheError where
  | parseFailure
deriving DecidableEq, Repr

/-- `OktaAuthResponse` in session.rs: the cached session token.
`expires_at` is not part of the wire response and is computed before
persistence. -/
structure OktaAuthResponse where
  token_type : String
  expires_in : Int
  access_token : String
  scope : String
  id_token : String
  expires_at : Option Int
deriving DecidableEq, Repr

/-- Serialization of a token as serde derives it: one JSON object with the
struct's fields in declaration order, `None` rendered as `null`. -/
def OktaAuthResponse.toJson (t : OktaAuthResponse) : Json :=
  .obj [("token_type", .str t.token_type),
        ("expires_in", .num t.expires_in),
        ("access_token", .str t.access_token),
        ("scope", .str t.scope),
        ("id_token", .str t.id_token),
        ("expires_at", match t.expires_at with
          | none => .null
          | some e => .num e)]

/-- Read a mandatory string field of a JSON object. -/
def getStringField (fields : List (String × Json)) (key : String) :
    Except TokenCacheError String :=
  match Json.lookup fields key with
  | some (.str s) => .ok s
  | _ => .error .parseFailure

/-- Read a mandatory integer field of a JSON object. -/
def getIntField (fields : List (String × Json)) (key : String) :
    Except TokenCacheError Int :=
  match Json.lookup fields key with
  | some (.num n) => .ok n
  | _ => .error .parseFailure

/-- Read an optional timestamp field of a JSON object: a missing field or
`null` is `none`, as serde deserializes `Option` fields. -/
def getOptTimeField (fields : List (String × Json)) (key : String) :
    Except TokenCacheError (Option Int) :=
  match Json.lookup fields key with
  | none => .ok none
  | some .null => .ok none
  | some (.num n) => .ok (some n)
  | some _ => .error .parseFailure

/-- Deserialization of a token from JSON, as serde derives it. -/
def OktaAuthResponse.fromJson (j : Json) : Except TokenCacheError OktaAuthResponse :=
  match j with
  | .obj fields => do
    let token_type ← getStringField fields "token_type"
    let expires_in ← getIntField fields "expires_in"
    let access_token ← getStringField fields "access_token"
    let scope ← getStringField fields "scope"
    let id_token ← getStringField fields "id_token"
    let expires_at ← getOptTimeField fields "expires_at"
    pure { token_type := token_type, expires_in := expires_in,
           access_token := access_token, scope := scope,
           id_token := id_token, expires_at := expires_at }
  | _ => .error .parseFailure

/-- `OktaAuthResponse::save`: overwrite the cache file with the serialized
token. -/
def OktaAuthResponse.save (t : OktaAuthResponse) (_cache : Option Json) :
    Option Json :=
  some t.toJson

/-- `OktaAuthResponse::load`: a missing cache file is `Ok(None)`; a present
file is deserialized, and a deserialization failure is an error. -/
def OktaAuthResponse.load (cache : Option Json) :
    Except TokenCacheError (Option OktaAuthResponse) :=
  match cache with
  | none => .ok none
  | some j => (OktaAuthResponse.fromJson j).map some

/-- `OktaAuthResponse::is_valid`: a token is valid when its expiry lies
strictly more than a 60-second buffer after `now`; a token without
`expires_at` is invalid. -/
def OktaAuthResponse.is_valid (t : OktaAuthResponse) (now : Int) : Bool :=
  let buffer : Int := 60
  match t.expires_at with
  | some expires_at => decide (expires_at > now + buffer)
  | none => false

/-- `AuthnResponse` in session.rs: the identity provider's session token. -/
structure AuthnResponse where
  session_token : String
deriving DecidableEq, Repr

/-- Error kinds of the authorization chain (anyhow messages in the source,
distinguished here as constructors). -/
inductive AuthError where
  | cacheLoadFailure
  | authFailure
  | clientIdNotFound
  | authorizationCodeNotFound
  | tokenExchangeFailure
deriving DecidableEq, Repr

/-- Observable effects of one `authorize` run: the four network exchanges of
the full chain, and the token-cache write. -/
inductive AuthEffect where
  | netAuthn
  | netClientId
  | netAuthorize
  | netToken
  | cacheWrite
deriving DecidableEq, Repr

/-- Environment of one `authorize` run: the outcome each network exchange
would have if performed. -/
structure NetWorld where
  authn : Except AuthError AuthnResponse
  client_id : Except AuthError String
  okta_code : Except AuthError String
  token : Except AuthError OktaAuthResponse

/-- Result of one `authorize` run: the outcome, the order-preserving trace
of effects performed, and the token-cache file afterwards. -/
structure AuthOutcome where
  result : Except AuthError OktaAuthResponse
  effects : List AuthEffect
  cache : Option Json

/-- The full authorization chain of `MlbSession::authorize` after a cache
miss: `authenticate`, then `fetch_okta_code` (which performs the client-id
fetch and the authorize request), then `exchange_code_for_token`; on success
`expires_at := now + expires_in` is set and the token is saved. -/
def full_authorization (cache : Option Json) (now : Int) (w : NetWorld) :
    AuthOutcome :=
  match w.authn with
  | .error e => ⟨.error e, [.netAuthn], cache⟩
  | .ok _ =>
    match w.client_id with
    | .error e => ⟨.error e, [.netAuthn, .netClientId], cache⟩
    | .ok _ =>
      match w.okta_code with
      | .error e => ⟨.error e, [.netAuthn, .netClientId, .netAuthorize], cache⟩
      | .ok _ =>
        match w.token with
        | .error e =>
          ⟨.error e, [.netAuthn, .netClientId, .netAuthorize, .netToken], cache⟩
        | .ok okta_tokens =>
          let fresh :=
            { okta_tokens with expires_at := some (now + okta_tokens.expires_in) }
          ⟨.ok fresh,
           [.netAuthn, .netClientId, .netAuthorize, .netToken, .cacheWrite],
           fresh.save cache⟩

/-- `MlbSession::<Unauthenticated>::authorize`: a cache-load failure is
propagated by `?`; a cached valid token is returned with no further effect;
otherwise the full chain runs. -/
def authorize (cache : Option Json) (now : Int) (w : NetWorld) : AuthOutcome :=
  match OktaAuthResponse.load cache with
  | .error _ => ⟨.error .cacheLoadFailure, [], cache⟩
  | .ok (some cached_token) =>
    if cached_token.is_valid now then ⟨.ok cached_token, [], cache⟩
    else full_authorization cache now w
  | .ok none => full_authorization cache now w

/-! ## Predicates and fixtures

`exactMatchClaim` states the exact-match condition in the words of the
specification (media kind, orientation, active state); the source's tier-1
predicate additionally requires `language = "en"`.  The fixtures mirror the
`mock_game` helper of the schedule.rs test module and supply concrete
streams, tokens and worlds for evaluating the theorems. -/

/-- Exact-match condition as the specification words it: requested media
kind, requested orientation, state not "OFF" (no language condition). -/
def exactMatchClaim (s : StreamData) (m : MediaType) (f : FeedType) : Prop :=
  s.media_state.media_type = m ∧ s.feed_type = f ∧ s.media_state.state ≠ "OFF"

instance (s : StreamData) (m : MediaType) (f : FeedType) :
    Decidable (exactMatchClaim s m f) := by
  unfold exactMatchClaim; infer_instance

/-- Fixture game, mirroring `mock_game` of the schedule.rs test module. -/
def mock_game (pk : Nat) (state : String) (gn : Nat) : GameData :=
  { game_pk := pk, game_date := "2024-10-01T19:00:00Z",
    status := { abstract_game_state := state, detailed_state := "Final",
                status_code := "F", reason := none, coded_game_state := "F" },
    teams := { home := { team := { id := 120, name := "Washington Nationals" } },
               away := { team := { id := 141, name := "Toronto Blue Jays" } } },
    game_number := gn, games_in_series := 3, series_game_number := 1 }

/-- Fixture doubleheader whose list order disagrees with its
`game_number` fields. -/
def gameNumberTwoFirst : GameData := mock_game 11111 "Final" 2

/-- Second entry of the misordered fixture doubleheader. -/
def gameNumberOneSecond : GameData := mock_game 22222 "Final" 1

/-- Fixture games list: positions and `game_number` fields disagree. -/
def dhGames : List GameData := [gameNumberTwoFirst, gameNumberOneSecond]

/-- Fixture stream: national English video, active. -/
def natEnStream : StreamData :=
  { media_id := "nat-en", feed_type := .network, language := "en",
    media_state := { state := "ON", media_type := .video } }

/-- Fixture stream: home French video, active. -/
def homeFrStream : StreamData :=
  { media_id := "home-fr", feed_type := .home, language := "fr",
    media_state := { state := "ON", media_type := .video } }

/-- Fixture stream: home English video, active. -/
def homeEnStream : StreamData :=
  { media_id := "home-en", feed_type := .home, language := "en",
    media_state := { state := "ON", media_type := .video } }

/-- Fixture stream: national French video, active. -/
def natFrStream : StreamData :=
  { media_id := "nat-fr", feed_type := .network, language := "fr",
    media_state := { state := "ON", media_type := .video } }

/-- Fixture stream: home English audio, active. -/
def homeEnAudioStream : StreamData :=
  { media_id := "home-en-audio", feed_type := .home, language := "en",
    media_state := { state := "ON", media_type := .audio } }

/-- Fixture token with an absolute expiry set. -/
def sampleToken : OktaAuthResponse :=
  { token_type := "Bearer", expires_in := 3600, access_token := "acc",
    scope := "openid", id_token := "idt", expires_at := some 100 }

/-- Fixture wire token as returned by the token exchange: no `expires_at`. -/
def wireToken : OktaAuthResponse :=
  { token_type := "Bearer", expires_in := 3600, access_token := "acc2",
    scope := "openid", id_token := "idt2", expires_at := none }

/-- Fixture cache file holding the serialized sample token. -/
def sampleCache : Option Json := some sampleToken.toJson

/-- Fixture network environment in which every exchange succeeds. -/
def sampleWorld : NetWorld :=
  { authn := .ok { session_token := "sess" },
    client_id := .ok "cid",
    okta_code := .ok "code",
    token := .ok wireToken }

/-- The feed-selection fallback written as explicit nested tiers in their
claimed order (exact request, national of the requested media kind, audio of
the requested orientation, any active stream), for stating the tier-order
property of `find_best_feed`. -/
def tierCascade (c : ContentSearchResults) (m : MediaType) (f : FeedType) :
    Option StreamData :=
  match c.select_feed m f with
  | some s => some s
  | none =>
    match c.select_feed m FeedType.network with
    | some s => some s
    | none =>
      match c.select_feed MediaType.audio f with
      | some s => some s
      | none => c.content.find? (fun s => decide (s.media_state.state ≠ "OFF"))

/-! ## Theorems -/

/-- Claim C6: for every token whose `expires_at` is set, `is_valid` returns
true iff `now + 60 < expires_at`; equivalently it returns true strictly
before the instant `expires_at - 60` and false at or after it. -/
theorem is_valid_iff (t : OktaAuthResponse) (now e : Int)
    (h : t.expires_at = some e) :
    (t.is_valid now = true ↔ now + 60 < e)
      ∧ (now < e - 60 → t.is_valid now = true)
      ∧ (e - 60 ≤ now → t.is_valid now = false) := by
  simp only [OktaAuthResponse.is_valid, h]
  refine ⟨?_, fun hlt => ?_, fun hge => ?_⟩ <;>
    simp only [decide_eq_true_eq, decide_eq_false_iff_not, gt_iff_lt] <;>
    omega

/-- Witness for C6 at the sample token (`expires_at = some 100`). -/
theorem is_valid_iff_witness :
    (sampleToken.is_valid 0 = true ↔ (0 : Int) + 60 < 100)
      ∧ ((0 : Int) < 100 - 60 → sampleToken.is_valid 0 = true)
      ∧ ((100 : Int) - 60 ≤ 0 → sampleToken.is_valid 0 = false) :=
  is_valid_iff sampleToken 0 100 rfl

/-- Claim C7: the response-handling core of `fetch_schedule_by_date`
returns `none` on zero date entries, the single entry on one, and an
unexpected-API-shape error on more than one. -/
theorem fetch_schedule_by_date_cardinality (dates : List DaySchedule) :
    (dates = [] → schedule.fetch_schedule_by_date dates = .ok none)
      ∧ (∀ d, dates = [d] → schedule.fetch_schedule_by_date dates = .ok (some d))
      ∧ (1 < dates.length →
          schedule.fetch_schedule_by_date dates =
            .error (.unexpectedApiShape dates.length)) := by
  refine ⟨fun h => by subst h; rfl, fun d h => by subst h; rfl, fun h => ?_⟩
  match dates, h with
  | d₁ :: d₂ :: ds, _ => rfl

/-- Witness for C7 at empty, singleton and two-element date lists. -/
theorem fetch_schedule_by_date_cardinality_witness :
    (schedule.fetch_schedule_by_date [] = .ok none)
      ∧ (schedule.fetch_schedule_by_date [⟨"2024-10-01", []⟩] =
          .ok (some ⟨"2024-10-01", []⟩))
      ∧ (schedule.fetch_schedule_by_date [⟨"2024-10-01", []⟩, ⟨"2024-10-02", []⟩] =
          .error (.unexpectedApiShape 2)) :=
  ⟨(fetch_schedule_by_date_cardinality []).1 rfl,
   (fetch_schedule_by_date_cardinality _).2.1 _ rfl,
   (fetch_schedule_by_date_cardinality _).2.2 (by decide)⟩

/-- Claim C8: saving a token to the cache and loading it back yields the
identical token. -/
theorem token_cache_round_trip (t : OktaAuthResponse) (cache : Option Json) :
    OktaAuthResponse.load (t.save cache) = .ok (some t) := by
  obtain ⟨tt, ei, acc, sc, idt, ea⟩ := t
  cases ea <;> rfl

/-- Claim C2: on a list of at least two games with a provided game number,
`select_game` rejects numbers outside {1, 2}, fails with a not-found error
when no game carries that `game_number`, and otherwise returns a game whose
`game_number` field equals the request. -/
theorem select_game_with_number_spec (games : List GameData) (n : Nat)
    (hlen : 2 ≤ games.length) :
    (¬(n = 1 ∨ n = 2) →
        schedule.select_game games (some n) = .error (.invalidGameNumber n))
      ∧ ((n = 1 ∨ n = 2) → (∀ g ∈ games, g.game_number ≠ n) →
        schedule.select_game games (some n) = .error (.gameNumberNotFound n))
      ∧ ((n = 1 ∨ n = 2) → (∃ g ∈ games, g.game_number = n) →
        ∃ g, schedule.select_game games (some n) = .ok g ∧ g ∈ games ∧
          g.game_number = n) := by
  match games, hlen with
  | g₁ :: g₂ :: gs, _ =>
    have hred : schedule.select_game (g₁ :: g₂ :: gs) (some n) =
        (if n ≠ 1 ∧ n ≠ 2 then .error (.invalidGameNumber n)
         else
           match (g₁ :: g₂ :: gs).find? (fun g => decide (g.game_number = n)) with
           | some g => .ok g
           | none => .error (.gameNumberNotFound n)) := rfl
    refine ⟨fun hn => ?_, fun hn hnone => ?_, fun hn hex => ?_⟩
    · have h12 : n ≠ 1 ∧ n ≠ 2 := by tauto
      rw [hred, if_pos h12]
    · have h12 : ¬(n ≠ 1 ∧ n ≠ 2) := by tauto
      have hfind : (g₁ :: g₂ :: gs).find? (fun g => decide (g.game_number = n)) = none :=
        List.find?_eq_none.mpr (fun x hx => by simpa using hnone x hx)
      rw [hred, if_neg h12, hfind]
    · have h12 : ¬(n ≠ 1 ∧ n ≠ 2) := by tauto
      obtain ⟨g, hg, hgn⟩ := hex
      have hsome : ((g₁ :: g₂ :: gs).find?
          (fun g => decide (g.game_number = n))).isSome :=
        List.find?_isSome.mpr ⟨g, hg, by simpa using hgn⟩
      obtain ⟨g', hg'⟩ := Option.isSome_iff_exists.mp hsome
      exact ⟨g', by rw [hred, if_neg h12, hg'],
        List.mem_of_find?_eq_some hg', by simpa using List.find?_some hg'⟩

/-- Witness for C2: game number 5 is rejected, and game number 1 selects
the game whose `game_number` field is 1 despite its list position. -/
theorem select_game_with_number_spec_witness :
    (¬((5 : Nat) = 1 ∨ (5 : Nat) = 2) →
        schedule.select_game dhGames (some 5) = .error (.invalidGameNumber 5))
      ∧ (∃ g, schedule.select_game dhGames (some 1) = .ok g ∧ g ∈ dhGames ∧
          g.game_number = 1) :=
  ⟨fun h => ((select_game_with_number_spec dhGames 5 (by decide)).1 h),
   (select_game_with_number_spec dhGames 1 (by decide)).2.2 (Or.inl rfl)
     ⟨gameNumberOneSecond, by decide, by decide⟩⟩

/-- Claim C3: on a list of at least two games with no game number provided,
`select_game` returns a live game when one exists, else the game numbered 1,
else the first list entry. -/
theorem select_game_without_number_spec (games : List GameData)
    (hlen : 2 ≤ games.length) :
    ((∃ g ∈ games, g.status.abstract_game_state = "Live") →
        ∃ g, schedule.select_game games none = .ok g ∧ g ∈ games ∧
          g.status.abstract_game_state = "Live")
      ∧ ((∀ g ∈ games, g.status.abstract_game_state ≠ "Live") →
          (∃ g ∈ games, g.game_number = 1) →
        ∃ g, schedule.select_game games none = .ok g ∧ g ∈ games ∧
          g.game_number = 1)
      ∧ ((∀ g ∈ games, g.status.abstract_game_state ≠ "Live") →
          (∀ g ∈ games, g.game_number ≠ 1) →
          ∀ a l, games = a :: l → schedule.select_game games none = .ok a) := by
  match games, hlen with
  | g₁ :: g₂ :: gs, _ =>
    have hred : schedule.select_game (g₁ :: g₂ :: gs) none =
        (match (g₁ :: g₂ :: gs).find?
            (fun g => decide (g.status.abstract_game_state = "Live")) with
         | some g => .ok g
         | none =>
           match (g₁ :: g₂ :: gs).find? (fun g => decide (g.game_number = 1)) with
           | some g => .ok g
           | none => .ok g₁) := rfl
    refine ⟨fun hex => ?_, fun hnl hex => ?_, fun hnl hn1 a l heq => ?_⟩
    · obtain ⟨g, hg, hgs⟩ := hex
      have hsome : ((g₁ :: g₂ :: gs).find?
          (fun g => decide (g.status.abstract_game_state = "Live"))).isSome :=
        List.find?_isSome.mpr ⟨g, hg, by simpa using hgs⟩
      obtain ⟨g', hg'⟩ := Option.isSome_iff_exists.mp hsome
      exact ⟨g', by rw [hred, hg'], List.mem_of_find?_eq_some hg',
        by simpa using List.find?_some hg'⟩
    · have hlive : (g₁ :: g₂ :: gs).find?
          (fun g => decide (g.status.abstract_game_state = "Live")) = none :=
        List.find?_eq_none.mpr (fun x hx => by simpa using hnl x hx)
      obtain ⟨g, hg, hgn⟩ := hex
      have hsome : ((g₁ :: g₂ :: gs).find?
          (fun g => decide (g.game_number = 1))).isSome :=
        List.find?_isSome.mpr ⟨g, hg, by simpa using hgn⟩
      obtain ⟨g', hg'⟩ := Option.isSome_iff_exists.mp hsome
      exact ⟨g', by rw [hred, hlive, hg'], List.mem_of_find?_eq_some hg',
        by simpa using List.find?_some hg'⟩
    · have hlive : (g₁ :: g₂ :: gs).find?
          (fun g => decide (g.status.abstract_game_state = "Live")) = none :=
        List.find?_eq_none.mpr (fun x hx => by simpa using hnl x hx)
      have hone : (g₁ :: g₂ :: gs).find?
          (fun g => decide (g.game_number = 1)) = none :=
        List.find?_eq_none.mpr (fun x hx => by simpa using hn1 x hx)
      have ha : a = g₁ := by injection heq.symm
      rw [hred, hlive, hone, ha]

/-- Witness for C3: a live second game is selected; with no live game the
game whose `game_number` is 1 is selected despite its list position. -/
theorem select_game_without_number_spec_witness :
    (∃ g, schedule.select_game
        [mock_game 11111 "Final" 1, mock_game 22222 "Live" 2] none = .ok g ∧
        g ∈ [mock_game 11111 "Final" 1, mock_game 22222 "Live" 2] ∧
        g.status.abstract_game_state = "Live")
      ∧ (∃ g, schedule.select_game dhGames none = .ok g ∧ g ∈ dhGames ∧
          g.game_number = 1) :=
  ⟨(select_game_without_number_spec _ (by decide)).1
      ⟨mock_game 22222 "Live" 2, by decide, rfl⟩,
   (select_game_without_number_spec dhGames (by decide)).2.1 (by decide)
      ⟨gameNumberOneSecond, by decide, rfl⟩⟩

/-- A tier-1 hit is returned by `find_best_feed` unchanged. -/
theorem select_feed_some_find_best_feed (c : ContentSearchResults)
    (m : MediaType) (f : FeedType) (t : StreamData)
    (h : c.select_feed m f = some t) : c.find_best_feed m f = some t := by
  unfold ContentSearchResults.find_best_feed
  simp [List.findSome?_cons, h]

/-- Counterexample to claim C1 as stated: the list holds a stream exactly
matching the requested media kind and orientation with active state (a home
video feed in French), yet `find_best_feed` returns a different stream (the
national English one), because the tier-1 predicate also requires
`language = "en"`. -/
theorem find_best_feed_exact_claim_cex :
    ¬ ((∃ s ∈ (ContentSearchResults.mk [natEnStream, homeFrStream]).content,
          exactMatchClaim s .video .home) →
        ∃ t, (ContentSearchResults.mk [natEnStream, homeFrStream]).find_best_feed
            .video .home = some t ∧ exactMatchClaim t .video .home) := by
  intro hclaim
  obtain ⟨t, ht, hm⟩ := hclaim ⟨homeFrStream, by decide, by decide⟩
  have hfb : (ContentSearchResults.mk [natEnStream, homeFrStream]).find_best_feed
      .video .home = some natEnStream := by decide
  rw [hfb] at ht
  injection ht with h
  subst h
  exact absurd hm (by decide)

/-- Claim C1 as amended: when the candidate list holds a stream exactly
matching the requested media kind and orientation, with active state and
language "en", `find_best_feed` returns a stream matching all of those
criteria. -/
theorem find_best_feed_exact_match_en (c : ContentSearchResults)
    (m : MediaType) (f : FeedType)
    (hex : ∃ s ∈ c.content, exactMatchClaim s m f ∧ s.language = "en") :
    ∃ t, c.find_best_feed m f = some t ∧ exactMatchClaim t m f ∧
      t.language = "en" := by
  obtain ⟨s, hs, ⟨hm, hf, hst⟩, hl⟩ := hex
  have hsome : (c.select_feed m f).isSome :=
    List.find?_isSome.mpr ⟨s, hs, by simp [hm, hf, hst, hl]⟩
  obtain ⟨t, ht⟩ := Option.isSome_iff_exists.mp hsome
  have hprops := List.find?_some ht
  simp only [decide_eq_true_eq] at hprops
  obtain ⟨hf', hm', hst', hl'⟩ := hprops
  exact ⟨t, select_feed_some_find_best_feed c m f t ht, ⟨hm', hf', hst'⟩, hl'⟩

/-- Witness for amended C1 at a singleton exact-match candidate list. -/
theorem find_best_feed_exact_match_en_witness :
    ∃ t, (ContentSearchResults.mk [homeEnStream]).find_best_feed
        .video .home = some t ∧ exactMatchClaim t .video .home ∧
      t.language = "en" :=
  find_best_feed_exact_match_en _ _ _ ⟨homeEnStream, by decide, by decide, rfl⟩

/-- Counterexample to claim C4 as stated: with no exact match, a national
video feed present (but in French) and a home audio feed present (English),
`find_best_feed` returns the audio feed, not the national one, because the
tier-2 predicate also requires `language = "en"`. -/
theorem find_best_feed_tier_order_cex :
    ¬ ((∀ s ∈ (ContentSearchResults.mk [natFrStream, homeEnAudioStream]).content,
          ¬ exactMatchClaim s .video .home) →
        (∃ s ∈ (ContentSearchResults.mk [natFrStream, homeEnAudioStream]).content,
          s.feed_type = .network ∧ s.media_state.media_type = .video ∧
          s.media_state.state ≠ "OFF") →
        (∃ s ∈ (ContentSearchResults.mk [natFrStream, homeEnAudioStream]).content,
          s.media_state.media_type = .audio ∧ s.feed_type = .home ∧
          s.media_state.state ≠ "OFF") →
        ∃ t, (ContentSearchResults.mk [natFrStream, homeEnAudioStream]).find_best_feed
            .video .home = some t ∧ t.feed_type = .network) := by
  intro hclaim
  obtain ⟨t, ht, hnet⟩ := hclaim (by decide)
    ⟨natFrStream, by decide, by decide⟩ ⟨homeEnAudioStream, by decide, by decide⟩
  have hfb : (ContentSearchResults.mk [natFrStream, homeEnAudioStream]).find_best_feed
      .video .home = some homeEnAudioStream := by decide
  rw [hfb] at ht
  injection ht with h
  subst h
  exact absurd hnet (by decide)

/-- Claim C4 as amended: `find_best_feed` checks the tiers in the fixed
order exact / national / audio / any-active, and when no tier-1 match exists
but a national feed of the requested media kind selectable by tier 2 (active
and in language "en") is present, a national feed of the requested media
kind is returned regardless of any audio candidates. -/
theorem find_best_feed_tier_order :
    (∀ (c : ContentSearchResults) (m : MediaType) (f : FeedType),
      c.find_best_feed m f = tierCascade c m f)
      ∧ (∀ (c : ContentSearchResults) (m : MediaType) (f : FeedType),
          (∀ s ∈ c.content, ¬(exactMatchClaim s m f ∧ s.language = "en")) →
          (∃ s ∈ c.content, s.feed_type = FeedType.network ∧
            s.media_state.media_type = m ∧ s.media_state.state ≠ "OFF" ∧
            s.language = "en") →
          ∃ t, c.find_best_feed m f = some t ∧ t.feed_type = FeedType.network ∧
            t.media_state.media_type = m) := by
  have horder : ∀ (c : ContentSearchResults) (m : MediaType) (f : FeedType),
      c.find_best_feed m f = tierCascade c m f := by
    intro c m f
    unfold ContentSearchResults.find_best_feed tierCascade
    cases h1 : c.select_feed m f with
    | some s => simp [List.findSome?_cons, h1]
    | none =>
      cases h2 : c.select_feed m FeedType.network with
      | some s => simp [List.findSome?_cons, h1, h2]
      | none =>
        cases h3 : c.select_feed MediaType.audio f with
        | some s => simp [List.findSome?_cons, h1, h2, h3]
        | none => simp [List.findSome?_cons, List.findSome?_nil, h1, h2, h3]
  refine ⟨horder, fun c m f hno hex => ?_⟩
  have h1 : c.select_feed m f = none :=
    List.find?_eq_none.mpr (fun x hx => by
      simp only [decide_eq_true_eq]
      rintro ⟨hf, hm, hst, hl⟩
      exact hno x hx ⟨⟨hm, hf, hst⟩, hl⟩)
  obtain ⟨s, hs, hnet, hm, hst, hl⟩ := hex
  have hsome : (c.select_feed m FeedType.network).isSome :=
    List.find?_isSome.mpr ⟨s, hs, by simp [hnet, hm, hst, hl]⟩
  obtain ⟨t, ht⟩ := Option.isSome_iff_exists.mp hsome
  have hprops := List.find?_some ht
  simp only [decide_eq_true_eq] at hprops
  obtain ⟨hf', hm', _, _⟩ := hprops
  refine ⟨t, ?_, hf', hm'⟩
  rw [horder c m f]
  unfold tierCascade
  rw [h1, ht]

/-- Witness for amended C4: only a national English video feed present. -/
theorem find_best_feed_tier_order_witness :
    ∃ t, (ContentSearchResults.mk [natEnStream]).find_best_feed
        .video .home = some t ∧ t.feed_type = FeedType.network ∧
      t.media_state.media_type = .video :=
  find_best_feed_tier_order.2 _ _ _ (by decide) ⟨natEnStream, by decide, by decide⟩

/-- Every branch of the full authorization chain performs the first network
exchange (`authenticate`). -/
theorem netAuthn_mem_full_authorization (cache : Option Json) (now : Int)
    (w : NetWorld) :
    AuthEffect.netAuthn ∈ (full_authorization cache now w).effects := by
  unfold full_authorization
  rcases w with ⟨a, cid, code, tk⟩
  cases a <;> cases cid <;> cases code <;> cases tk <;> simp

/-- Claim C5: a cached valid token short-circuits `authorize` (no effects at
all, cache file untouched), while a full authorization sets `expires_at` to
`now + expires_in`, performs the four network exchanges and writes the cache
file. -/
theorem authorize_cache_hit_and_full_auth (cache : Option Json) (now : Int)
    (w : NetWorld) :
    (∀ t, OktaAuthResponse.load cache = .ok (some t) → t.is_valid now = true →
        authorize cache now w = ⟨.ok t, [], cache⟩)
      ∧ (∀ tok, (OktaAuthResponse.load cache = .ok none ∨
            ∃ u, OktaAuthResponse.load cache = .ok (some u) ∧
              u.is_valid now = false) →
          (∃ a, w.authn = .ok a) → (∃ cid, w.client_id = .ok cid) →
          (∃ code, w.okta_code = .ok code) → w.token = .ok tok →
          authorize cache now w =
            ⟨.ok { tok with expires_at := some (now + tok.expires_in) },
             [.netAuthn, .netClientId, .netAuthorize, .netToken, .cacheWrite],
             some (OktaAuthResponse.toJson
               { tok with expires_at := some (now + tok.expires_in) })⟩) := by
  constructor
  · intro t hload hvalid
    simp [authorize, hload, hvalid]
  · intro tok hmiss ⟨a, ha⟩ ⟨cid, hcid⟩ ⟨code, hcode⟩ htok
    have hfull : full_authorization cache now w =
        ⟨.ok { tok with expires_at := some (now + tok.expires_in) },
         [.netAuthn, .netClientId, .netAuthorize, .netToken, .cacheWrite],
         some (OktaAuthResponse.toJson
           { tok with expires_at := some (now + tok.expires_in) })⟩ := by
      simp [full_authorization, ha, hcid, hcode, htok, OktaAuthResponse.save]
    rcases hmiss with hl | ⟨u, hl, hinv⟩
    · simp [authorize, hl, hfull]
    · simp [authorize, hl, hinv, hfull]

/-- Witness for C5: a second `authorize` within the validity window does no
work, and a run with an empty cache performs the full chain and persists the
token with `expires_at` set. -/
theorem authorize_cache_hit_and_full_auth_witness :
    (authorize sampleCache 0 sampleWorld = ⟨.ok sampleToken, [], sampleCache⟩)
      ∧ (authorize none 0 sampleWorld =
          ⟨.ok { wireToken with expires_at := some (0 + wireToken.expires_in) },
           [.netAuthn, .netClientId, .netAuthorize, .netToken, .cacheWrite],
           some (OktaAuthResponse.toJson
             { wireToken with expires_at := some (0 + wireToken.expires_in) })⟩) :=
  ⟨(authorize_cache_hit_and_full_auth sampleCache 0 sampleWorld).1
      sampleToken rfl rfl,
   (authorize_cache_hit_and_full_auth none 0 sampleWorld).2
      wireToken (Or.inl rfl) ⟨_, rfl⟩ ⟨_, rfl⟩ ⟨_, rfl⟩ rfl⟩

/-- Claim C9: an unparsable cache file makes `authorize` fail without any
network call instead of re-authenticating, and the full chain runs exactly
when the cache file is missing or holds an invalid (expired) token. -/
theorem authorize_cache_parse_failure (cache : Option Json) (now : Int)
    (w : NetWorld) :
    (∀ e, OktaAuthResponse.load cache = .error e →
        authorize cache now w = ⟨.error .cacheLoadFailure, [], cache⟩)
      ∧ (AuthEffect.netAuthn ∈ (authorize cache now w).effects ↔
          (OktaAuthResponse.load cache = .ok none ∨
            ∃ t, OktaAuthResponse.load cache = .ok (some t) ∧
              t.is_valid now = false)) := by
  constructor
  · intro e he
    simp [authorize, he]
  · cases hl : OktaAuthResponse.load cache with
    | error e => simp [authorize, hl]
    | ok o =>
      cases o with
      | none => simp [authorize, hl, netAuthn_mem_full_authorization]
      | some u =>
        by_cases hv : u.is_valid now
        · simp [authorize, hl, hv]
        · simp [authorize, hl, hv, netAuthn_mem_full_authorization]

/-- Witness for C9 at a cache file holding a non-token JSON document. -/
theorem authorize_cache_parse_failure_witness :
    authorize (some (Json.str "garbage")) 0 sampleWorld =
      ⟨.error .cacheLoadFailure, [], some (Json.str "garbage")⟩ :=
  (authorize_cache_parse_failure (some (Json.str "garbage")) 0 sampleWorld).1
    .parseFailure rfl

/-- Counterexample to claim C10: on a doubleheader list whose positions
disagree with the `game_number` fields, the legacy selector returns the
first element positionally for game number 1 while the current one returns
the game whose `game_number` field is 1, so they return different games. -/
theorem select_game_impls_disagree :
    (gamedata.select_game dhGames (some 1) = .ok gameNumberTwoFirst)
      ∧ (schedule.select_game dhGames (some 1) = .ok gameNumberOneSecond)
      ∧ ¬ ((∃ e₁ e₂, gamedata.select_game dhGames (some 1) = .error e₁ ∧
              schedule.select_game dhGames (some 1) = .error e₂)
            ∨ (∃ g, gamedata.select_game dhGames (some 1) = .ok g ∧
                schedule.select_game dhGames (some 1) = .ok g)) := by
  refine ⟨rfl, rfl, ?_⟩
  rintro (⟨e₁, e₂, he₁, he₂⟩ | ⟨g, hg₁, hg₂⟩)
  · have h1 : gamedata.select_game dhGames (some 1) = .ok gameNumberTwoFirst := rfl
    rw [h1] at he₁
    exact absurd he₁ (by simp)
  · have h1 : gamedata.select_game dhGames (some 1) = .ok gameNumberTwoFirst := rfl
    have h2 : schedule.select_game dhGames (some 1) = .ok gameNumberOneSecond := rfl
    rw [h1] at hg₁
    rw [h2] at hg₂
    injection hg₁ with hga
    injection hg₂ with hgb
    subst hga
    exact absurd hgb (by decide)

/-- Claim C10 as amended: the legacy and current selectors agree on lists of
at most one game, and on two-game lists whose i-th element carries
`game_number` i with at most one live game. -/
theorem select_game_impls_agree_wellformed (games : List GameData)
    (gn : Option Nat)
    (h : games.length ≤ 1 ∨
      ∃ g₁ g₂, games = [g₁, g₂] ∧ g₁.game_number = 1 ∧ g₂.game_number = 2 ∧
        ¬(g₁.status.abstract_game_state = "Live" ∧
          g₂.status.abstract_game_state = "Live")) :
    (∃ e₁ e₂, gamedata.select_game games gn = .error e₁ ∧
        schedule.select_game games gn = .error e₂)
      ∨ (∃ g, gamedata.select_game games gn = .ok g ∧
          schedule.select_game games gn = .ok g) := by
  rcases h with hlen | ⟨g₁, g₂, hgames, h1, h2, hnotboth⟩
  · match games, hlen with
    | [], _ => exact Or.inl ⟨.noGameAvailable, .noGameAvailable, rfl, rfl⟩
    | [g], _ => exact Or.inr ⟨g, rfl, rfl⟩
  · subst hgames
    cases gn with
    | none =>
      by_cases hL2 : g₂.status.abstract_game_state = "Live"
      · have hL1 : ¬ g₁.status.abstract_game_state = "Live" :=
          fun hL1 => hnotboth ⟨hL1, hL2⟩
        refine Or.inr ⟨g₂, ?_, ?_⟩
        · simp [gamedata.select_game, hL2]
        · simp [schedule.select_game, List.find?_cons, hL1, hL2]
      · by_cases hL1 : g₁.status.abstract_game_state = "Live"
        · refine Or.inr ⟨g₁, ?_, ?_⟩
          · simp [gamedata.select_game, hL2]
          · simp [schedule.select_game, List.find?_cons, hL1]
        · refine Or.inr ⟨g₁, ?_, ?_⟩
          · simp [gamedata.select_game, hL2]
          · simp [schedule.select_game, List.find?_cons, hL1, hL2, h1]
    | some n =>
      by_cases hn1 : n = 1
      · subst hn1
        refine Or.inr ⟨g₁, ?_, ?_⟩
        · simp [gamedata.select_game]
        · simp [schedule.select_game, List.find?_cons, h1]
      · by_cases hn2 : n = 2
        · subst hn2
          refine Or.inr ⟨g₂, ?_, ?_⟩
          · simp [gamedata.select_game]
          · simp [schedule.select_game, List.find?_cons, h1, h2]
        · refine Or.inl ⟨.invalidGameNumber n, .invalidGameNumber n, ?_, ?_⟩
          · simp [gamedata.select_game, hn1, hn2]
          · simp [schedule.select_game, hn1, hn2]

/-- Witness for amended C10 at a well-formed doubleheader with a live
second game. -/
theorem select_game_impls_agree_wellformed_witness :
    (∃ e₁ e₂, gamedata.select_game
        [mock_game 1 "Final" 1, mock_game 2 "Live" 2] none = .error e₁ ∧
        schedule.select_game
          [mock_game 1 "Final" 1, mock_game 2 "Live" 2] none = .error e₂)
      ∨ (∃ g, gamedata.select_game
          [mock_game 1 "Final" 1, mock_game 2 "Live" 2] none = .ok g ∧
          schedule.select_game
            [mock_game 1 "Final" 1, mock_game 2 "Live" 2] none = .ok g) :=
  select_game_impls_agree_wellformed _ none
    (Or.inr ⟨_, _, rfl, rfl, rfl, by decide⟩)

end Mlbv
